import Mathlib

/-!
Shallow embedding of the newspapers.com scraper (`src/main.py`) and proofs
about its retry policy, enrichment merge, page fetcher and pagination loop.

Network effects are supplied as input oracles: each attempt of a loop reads
one outcome from an oracle function/list, so the pure Lean functions below
mirror the control flow of the Python source exactly.
-/

namespace Newspapers

/-- Shape-only model of a decoded JSON value.  The per-item lookup code only
inspects whether values are lists (`isinstance(data, list)`), so `atom`
stands for every non-array JSON value (numbers, strings, objects, null). -/
inductive Json where
  | arr (xs : List Json)
  | atom (s : String)

/-- The `keyword_match_count` value attached to a record: an integer count or
the terminal `"ERROR"` sentinel.  A record whose field was never assigned is
modelled as `Option MatchCount = none` (the spec's `Pending`). -/
inductive MatchCount where
  | counted (n : Nat)
  | error
deriving DecidableEq

/-- What one attempt of `get_keyword_match_count`'s try-block does:
`clientError` is a raised `aiohttp.ClientError` (handled by `continue`),
`generalError` is any other raised exception (incl. JSON decode failure),
`response` is a successfully decoded JSON body. -/
inductive AttemptOutcome where
  | clientError
  | generalError
  | response (data : Json)

def AttemptOutcome.isFailure : AttemptOutcome → Bool
  | .clientError => true
  | .generalError => true
  | .response _ => false

def AttemptOutcome.isGeneralError : AttemptOutcome → Bool
  | .generalError => true
  | _ => false

/-- `isinstance(data, list) and len(data) > 0 and isinstance(data[0], list)`
yields `len(data[0])`; every other shape yields no count. -/
def parseHits : Json → Option Nat
  | .arr (first :: _) =>
    match first with
    | .arr xs => some xs.length
    | .atom _ => none
  | .arr [] => none
  | .atom _ => none

/-- The `for attempt in range(max_retries)` loop of `get_keyword_match_count`.
`rem` is the number of loop iterations left, `attempt` the current index.
Returns (result, attempts executed, backoff sleeps executed).  Mirrors the
source: a decoded response returns immediately (counted or `"ERROR"`
depending on shape); `clientError` hits `continue`, skipping the
`asyncio.sleep` line; `generalError` falls through to the sleep, which runs
only when `attempt < max_retries - 1`. -/
def lookupGo (outcomes : Nat → AttemptOutcome) (maxRetries : Nat) :
    Nat → Nat → MatchCount × Nat × Nat
  | 0, _ => (.error, 0, 0)
  | rem + 1, attempt =>
    match outcomes attempt with
    | .response data =>
      match parseHits data with
      | some n => (.counted n, 1, 0)
      | none => (.error, 1, 0)
    | .clientError =>
      let p := lookupGo outcomes maxRetries rem (attempt + 1)
      (p.1, p.2.1 + 1, p.2.2)
    | .generalError =>
      let p := lookupGo outcomes maxRetries rem (attempt + 1)
      (p.1, p.2.1 + 1, if attempt < maxRetries - 1 then p.2.2 + 1 else p.2.2)

/-- `get_keyword_match_count(image_id, keyword, max_retries)`: returns the
`(image_id, match_count)` pair the coroutine returns, together with the
number of attempts and of backoff sleeps.  The keyword only forms the URL,
so it is absorbed into the outcome oracle. -/
def get_keyword_match_count (imageId : Nat) (outcomes : Nat → AttemptOutcome)
    (maxRetries : Nat) : (Nat × MatchCount) × Nat × Nat :=
  let p := lookupGo outcomes maxRetries maxRetries 0
  ((imageId, p.1), p.2.1, p.2.2)

/-- Number of attempts in `[attempt, attempt + k)` whose outcome is a general
(non-client) error — exactly the attempts after which the backoff sleep runs
(when they are not the last attempt). -/
def generalCount (outcomes : Nat → AttemptOutcome) : Nat → Nat → Nat
  | _, 0 => 0
  | attempt, k + 1 =>
    (if (outcomes attempt).isGeneralError then 1 else 0) +
      generalCount outcomes (attempt + 1) k

/-- The `page` sub-dict of a search record.  `id` is optional: the enrichment
code separately tests `'page' in record` and `'id' in record['page']`. -/
structure PageInfo where
  id : Option Nat
  pageNumber : Nat
  date : String
  viewerUrl : String
deriving DecidableEq

/-- The `publication` sub-dict of a search record. -/
structure Publication where
  name : String
  location : String
deriving DecidableEq

/-- One record of a search-results page.  `page`/`publication` are `none`
when the corresponding dict key is absent; `keyword_match_count = none`
models the key never having been assigned (the spec's `Pending`). -/
structure SearchRecord where
  page : Option PageInfo
  publication : Option Publication
  keyword_match_count : Option MatchCount
deriving DecidableEq

/-- `'page' in record and 'id' in record['page']`, returning the id. -/
def SearchRecord.pageId (r : SearchRecord) : Option Nat :=
  r.page.bind (fun pi => pi.id)

/-- The merge loop `for record, (image_id, match_count) in zip(search_results,
results)` of `get_keyword_matches_for_search_results`: `zip` stops at the
shorter list, unvisited records stay unchanged, and a visited record is
updated only when it has a page id equal to the result's `image_id`. -/
def mergeMatches : List SearchRecord → List (Nat × MatchCount) → List SearchRecord
  | [], _ => []
  | r :: rs, [] => r :: rs
  | r :: rs, (iid, mc) :: res =>
    (match r.pageId with
     | some rid =>
       if rid = iid then ⟨r.page, r.publication, some mc⟩ else r
     | none => r) :: mergeMatches rs res

/-- `get_keyword_matches_for_search_results(search_results, keyword)`: one
lookup task per record that has a page id (in list order), then the zip-merge
of the task results back onto the full record list.  `oracle iid` supplies
the attempt outcomes of the lookup for image id `iid`. -/
def get_keyword_matches_for_search_results
    (oracle : Nat → Nat → AttemptOutcome) (search_results : List SearchRecord) :
    List SearchRecord :=
  let results :=
    (search_results.filterMap (fun r => r.pageId)).map
      (fun iid => (get_keyword_match_count iid (oracle iid) 5).1)
  mergeMatches search_results results

/-- What one record becomes under a correctly aligned enrichment merge. -/
def enrichOne (oracle : Nat → Nat → AttemptOutcome) (r : SearchRecord) :
    SearchRecord :=
  match r.pageId with
  | some iid =>
    ⟨r.page, r.publication, some (get_keyword_match_count iid (oracle iid) 5).1.2⟩
  | none => r

/-- The dict `scrape_single_page` returns on success and the coordinator
consumes: enriched records, reported `recordCount`, and `nextStart`
(`none` models JSON null). -/
structure PageResult where
  records_with_matches : List SearchRecord
  recordCount : Nat
  nextStart : Option String
deriving DecidableEq

/-- The parsed payload of a search-query response, before the emptiness
check and the enrichment step. -/
structure RawPage where
  records : List SearchRecord
  recordCount : Nat
  nextStart : Option String
deriving DecidableEq

/-- What one attempt of `scrape_single_page`'s try-block does:
`networkError` is a raised transport error, `challenge` means the Cloudflare
interstitial was detected, `parseFailure` a JSON decode failure, `page` a
decoded payload (possibly with zero records). -/
inductive FetchOutcome where
  | networkError
  | challenge
  | parseFailure
  | page (raw : RawPage)
deriving DecidableEq

def FetchOutcome.isChallenge : FetchOutcome → Bool
  | .challenge => true
  | _ => false

/-- Whether this attempt outcome is a decoded payload with at least one
record — the only outcome `scrape_single_page` turns into a result. -/
def FetchOutcome.yieldsRecords : FetchOutcome → Bool
  | .page raw => !raw.records.isEmpty
  | _ => false

/-- Observable facts about one attempt of `scrape_single_page`: which
browser page/tab it used (a fresh tab gets a fresh id), the cookie-jar
generation it ran under (`context.clear_cookies()` bumps it), and whether
the attempt hit the anti-bot challenge. -/
structure AttemptInfo where
  pageId : Nat
  cookieGen : Nat
  challenged : Bool
deriving DecidableEq

/-- The retry loop of `scrape_single_page`, one list element per remaining
attempt.  On every failure the source closes the tab (`page.close()`,
`page = None`), so the next attempt opens a fresh tab (`pageId + 1`); on a
challenge it additionally clears cookies (`cookieGen + 1`).  A payload with
zero records raises `"No records found"` and is retried; a payload with
records is enriched and returned.  Exhaustion returns `none`. -/
def scrapeSinglePageGo (oracle : Nat → Nat → AttemptOutcome) :
    List FetchOutcome → Nat → Nat → List AttemptInfo × Option PageResult
  | [], _, _ => ([], none)
  | o :: rest, pid, cgen =>
    match o with
    | .page raw =>
      if raw.records.isEmpty then
        let p := scrapeSinglePageGo oracle rest (pid + 1) cgen
        (⟨pid, cgen, false⟩ :: p.1, p.2)
      else
        ([⟨pid, cgen, false⟩],
          some ⟨get_keyword_matches_for_search_results oracle raw.records,
                raw.recordCount, raw.nextStart⟩)
    | .challenge =>
      let p := scrapeSinglePageGo oracle rest (pid + 1) (cgen + 1)
      (⟨pid, cgen, true⟩ :: p.1, p.2)
    | .networkError =>
      let p := scrapeSinglePageGo oracle rest (pid + 1) cgen
      (⟨pid, cgen, false⟩ :: p.1, p.2)
    | .parseFailure =>
      let p := scrapeSinglePageGo oracle rest (pid + 1) cgen
      (⟨pid, cgen, false⟩ :: p.1, p.2)

/-- `scrape_single_page(context, page_num, params, keyword)` with
`max_retries = 3`: at most three attempts, starting on a fresh tab with the
context's current cookie jar. -/
def scrape_single_page (oracle : Nat → Nat → AttemptOutcome)
    (outcomes : List FetchOutcome) : List AttemptInfo × Option PageResult :=
  scrapeSinglePageGo oracle (outcomes.take 3) 1 0

/-- One row of the output `format_and_save_records` writes. -/
structure FormattedRecord where
  title : String
  pageNumber : Nat
  date : String
  location : String
  matchCount : MatchCount
  viewerUrl : String
deriving DecidableEq

/-- The dict comprehension body of `format_and_save_records`: a missing
`publication`, `page` or `keyword_match_count` key raises `KeyError`,
modelled as `none`. -/
def formatRecord (r : SearchRecord) : Option FormattedRecord :=
  match r.publication, r.page, r.keyword_match_count with
  | some pub, some pi, some mc =>
    some ⟨pub.name, pi.pageNumber, pi.date, pub.location, mc, pi.viewerUrl⟩
  | _, _, _ => none

/-- `format_and_save_records(all_records, ...)`: returns `[]` for an empty
input, otherwise formats every record; a `KeyError` on any record aborts
the formatting (`none`). -/
def format_and_save_records (all_records : List SearchRecord) :
    Option (List FormattedRecord) :=
  if all_records.isEmpty then some [] else all_records.mapM formatRecord

def CONCURRENT_PAGES : Nat := 10

def RESULTS_PER_PAGE : Nat := 50

/-- The parameters of one search-query request that the claims depend on:
the keyword, the `start` cursor value baked into the params dict when the
task is created, the 1-based page number, and the page size. -/
structure PageRequest where
  keyword : String
  start : Option String
  pageNum : Nat
  count : Nat
deriving DecidableEq

/-- Python's `max_pages and page_count >= max_pages`: falsy for
`None` and for `0`. -/
def capHit (maxPages : Option Nat) (pageCount : Nat) : Bool :=
  match maxPages with
  | none => false
  | some 0 => false
  | some (m + 1) => decide (pageCount ≥ m + 1)

/-- The task-building loop `for _ in range(CONCURRENT_PAGES)`: builds one
request per iteration from the round's `last_start_value`, stopping early
when the page cap is hit.  Returns the requests and the new page count. -/
def buildRequests (keyword : String) (maxPages : Option Nat)
    (lastStart : Option String) : Nat → Nat → List PageRequest × Nat
  | 0, pc => ([], pc)
  | n + 1, pc =>
    if capHit maxPages pc then ([], pc)
    else
      let p := buildRequests keyword maxPages lastStart n (pc + 1)
      (⟨keyword, lastStart, pc + 1, RESULTS_PER_PAGE⟩ :: p.1, p.2)

/-- The mutable locals of `scrape_newspapers`'s while-loop. -/
structure CrawlState where
  allRecords : List SearchRecord
  pageCount : Nat
  totalPages : Nat
  lastStart : Option String
deriving DecidableEq

/-- `all_records = []`, `page_count = 0`, `total_pages = 1`,
`last_start_value = "*"`. -/
def initialState : CrawlState := ⟨[], 0, 1, some "*"⟩

/-- `math.ceil(record_count / RESULTS_PER_PAGE)` on naturals. -/
def ceilDiv (a b : Nat) : Nat := (a + b - 1) / b

/-- The loop `for result in valid_results`: extends `all_records` with each
result's records and overwrites `last_start_value` with each result's
`nextStart` (the key is always present), so the last valid result wins. -/
def consumeValid (acc : List SearchRecord) (cur : Option String) :
    List PageResult → List SearchRecord × Option String
  | [] => (acc, cur)
  | r :: rs => consumeValid (acc ++ r.records_with_matches) r.nextStart rs

/-- Why the while-loop of `scrape_newspapers` exited. -/
inductive StopReason where
  | emptyRound
  | capReached
  | totalPagesReached
  | exhausted
deriving DecidableEq

/-- The requests one round issues, all built before any fetch runs. -/
def roundRequests (keyword : String) (maxPages : Option Nat) (st : CrawlState) :
    List PageRequest :=
  (buildRequests keyword maxPages st.lastStart CONCURRENT_PAGES st.pageCount).1

/-- The page count after one round's task-building loop. -/
def roundPageCount (keyword : String) (maxPages : Option Nat) (st : CrawlState) :
    Nat :=
  (buildRequests keyword maxPages st.lastStart CONCURRENT_PAGES st.pageCount).2

/-- One iteration of the while-loop of `scrape_newspapers`: build up to
`CONCURRENT_PAGES` requests from the current cursor, gather their results
(`fetch` maps a request to `scrape_single_page`'s return value), drop the
`None`s, and either stop on an all-failed round or consume the valid
results, recompute the total-page estimate from the first valid result, and
evaluate the three `break` checks in source order.  Returns the new state,
the round's valid results, and the stop reason if the loop exits. -/
def roundStep (keyword : String) (maxPages : Option Nat)
    (fetch : PageRequest → Option PageResult) (st : CrawlState) :
    CrawlState × List PageResult × Option StopReason :=
  let pc' := roundPageCount keyword maxPages st
  match (roundRequests keyword maxPages st).filterMap fetch with
  | [] => (⟨st.allRecords, pc', st.totalPages, st.lastStart⟩, [], some .emptyRound)
  | v :: vs =>
    let cv := consumeValid st.allRecords st.lastStart (v :: vs)
    let newTotal := ceilDiv v.recordCount RESULTS_PER_PAGE
    (⟨cv.1, pc', newTotal, cv.2⟩, v :: vs,
      if capHit maxPages pc' then some .capReached
      else if newTotal ≤ pc' then some .totalPagesReached
      else if cv.2 = none then some .exhausted
      else none)

/-- The while-loop of `scrape_newspapers`, fuel-bounded.  Also returns the
valid page results consumed so far, in round order then batch order; the
stop reason is `none` when the fuel ran out with the loop still running. -/
def crawlLoop (keyword : String) (maxPages : Option Nat)
    (fetch : PageRequest → Option PageResult) :
    Nat → CrawlState → CrawlState × List PageResult × Option StopReason
  | 0, st => (st, [], none)
  | fuel + 1, st =>
    match roundStep keyword maxPages fetch st with
    | (st', valid, some r) => (st', valid, some r)
    | (st', valid, none) =>
      let p := crawlLoop keyword maxPages fetch fuel st'
      (p.1, valid ++ p.2.1, p.2.2)

/-- Concatenation of the consumed results' record lists, in consumption
order. -/
def collectRecords : List PageResult → List SearchRecord
  | [] => []
  | p :: ps => p.records_with_matches ++ collectRecords ps

/-- `scrape_newspapers` end to end: run the crawl loop from the initial
state, then hand the accumulated records to `format_and_save_records`
(an empty crawl returns `[]` directly). -/
def scrape_newspapers (keyword : String) (maxPages : Option Nat)
    (fetch : PageRequest → Option PageResult) (fuel : Nat) :
    Option (List FormattedRecord) :=
  let st := (crawlLoop keyword maxPages fetch fuel initialState).1
  if st.allRecords.isEmpty then some [] else format_and_save_records st.allRecords

/-! Concrete inputs used by witnesses and counterexamples. -/

/-- Attempt oracle that raises a general error on every attempt. -/
def allGeneralErrors : Nat → AttemptOutcome := fun _ => .generalError

/-- One client error, then a well-formed response with two hits. -/
def oneClientThenSuccess : Nat → AttemptOutcome := fun i =>
  if i = 0 then .clientError else .response (.arr [.arr [.atom "m", .atom "m"]])

/-- One general error, then a well-formed response with two hits. -/
def oneGeneralThenSuccess : Nat → AttemptOutcome := fun i =>
  if i = 0 then .generalError else .response (.arr [.arr [.atom "m", .atom "m"]])

/-- A decodable response of the wrong shape on the first attempt, then a
well-formed response with two hits on the second. -/
def badShapeThenGood : Nat → AttemptOutcome := fun i =>
  if i = 0 then .response (.atom "x") else .response (.arr [.arr [.atom "m", .atom "m"]])

/-- A decodable response of the wrong shape on every attempt. -/
def alwaysBadShape : Nat → AttemptOutcome := fun _ => .response (.atom "x")

/-- Lookup oracle whose every lookup immediately parses to zero hits. -/
def zeroHitsOracle : Nat → Nat → AttemptOutcome := fun _ _ => .response (.arr [.arr []])

/-- Lookup oracle whose every attempt raises. -/
def failingOracle : Nat → Nat → AttemptOutcome := fun _ _ => .generalError

/-- A record whose `page` dict has no `id` key. -/
def recordNoId : SearchRecord :=
  ⟨some ⟨none, 1, "1900-01-01", "u1"⟩, some ⟨"Paper A", "NY"⟩, none⟩

/-- A record with page id 7, not yet enriched. -/
def recordId7 : SearchRecord :=
  ⟨some ⟨some 7, 2, "1900-01-02", "u2"⟩, some ⟨"Paper B", "CA"⟩, none⟩

/-- An already-enriched record, as an abstract page fetch hands it to the
coordinator. -/
def enrichedRecord : SearchRecord :=
  ⟨some ⟨some 1, 1, "d", "u"⟩, some ⟨"t", "l"⟩, some (.counted 0)⟩

/-- Fetch oracle: every page succeeds with a huge reported record count, so
no termination condition fires. -/
def fetchKeepsGoing : PageRequest → Option PageResult :=
  fun _ => some ⟨[enrichedRecord], 100000, some "c"⟩

/-- Fetch oracle: every page succeeds, reports 50 records in total and a
non-null next cursor. -/
def fetchFiftyTotal : PageRequest → Option PageResult :=
  fun _ => some ⟨[enrichedRecord], 50, some "c1"⟩

/-- Fetch oracle with exactly five pages available upstream. -/
def fetchFivePages : PageRequest → Option PageResult := fun req =>
  if req.pageNum ≤ 5 then some ⟨[enrichedRecord], 250, some "c1"⟩ else none

/-- Fetch oracle where pages 1 and 2 succeed with distinct next cursors and
later pages fail. -/
def fetchTwoCursors : PageRequest → Option PageResult := fun req =>
  if req.pageNum = 1 then some ⟨[], 50, some "c1"⟩
  else if req.pageNum = 2 then some ⟨[], 50, some "c2"⟩ else none

/-- Fetch oracle where every request fails even after retries. -/
def fetchAllFail : PageRequest → Option PageResult := fun _ => none

/-- Fetch oracle where only page 1 yields a result, with two records and an
exhausted cursor. -/
def fetchOnePageTwoRecords : PageRequest → Option PageResult := fun req =>
  if req.pageNum = 1 then some ⟨[enrichedRecord, enrichedRecord], 50, none⟩ else none

/-- A mid-crawl state with one already-collected record. -/
def midState : CrawlState := ⟨[enrichedRecord], 0, 7, some "n1"⟩

/-- Relation between consecutive attempts of `scrape_single_page`: the next
attempt always runs on a freshly opened tab (the failed attempt's tab was
closed), and the cookie jar was cleared exactly when the previous attempt
hit the anti-bot challenge. -/
def sessionStep (a b : AttemptInfo) : Prop :=
  b.pageId = a.pageId + 1 ∧
    b.cookieGen = (if a.challenged = true then a.cookieGen + 1 else a.cookieGen)

end Newspapers

namespace Newspapers

/-! Helper lemmas about the retry loop of `get_keyword_match_count`. -/

theorem lookupGo_fail_then_success (outcomes : Nat → AttemptOutcome) (maxR : Nat)
    (data : Json) (n : Nat) :
    ∀ (k rem attempt : Nat), k < rem → attempt + k < maxR →
      (∀ i, attempt ≤ i → i < attempt + k → (outcomes i).isFailure = true) →
      outcomes (attempt + k) = .response data → parseHits data = some n →
      lookupGo outcomes maxR rem attempt =
        (.counted n, k + 1, generalCount outcomes attempt k) := by
  intro k
  induction k with
  | zero =>
    intro rem attempt hrem hmax hfail hresp hparse
    cases rem with
    | zero => omega
    | succ r =>
      rw [Nat.add_zero] at hresp
      simp [lookupGo, hresp, hparse, generalCount]
  | succ k ih =>
    intro rem attempt hrem hmax hfail hresp hparse
    cases rem with
    | zero => omega
    | succ r =>
      have hf0 : (outcomes attempt).isFailure = true :=
        hfail attempt le_rfl (by omega)
      have hresp' : outcomes (attempt + 1 + k) = .response data := by
        rw [show attempt + 1 + k = attempt + (k + 1) by omega]
        exact hresp
      have hfail' : ∀ i, attempt + 1 ≤ i → i < attempt + 1 + k →
          (outcomes i).isFailure = true :=
        fun i h1 h2 => hfail i (by omega) (by omega)
      have hstep := ih r (attempt + 1) (by omega) (by omega) hfail' hresp' hparse
      cases ho : outcomes attempt with
      | response d => rw [ho] at hf0; simp [AttemptOutcome.isFailure] at hf0
      | clientError =>
        simp [lookupGo, ho, hstep, generalCount, AttemptOutcome.isGeneralError]
      | generalError =>
        have hlt : attempt < maxR - 1 := by omega
        simp [lookupGo, ho, hstep, generalCount, AttemptOutcome.isGeneralError, hlt]
        omega

theorem lookupGo_all_fail (outcomes : Nat → AttemptOutcome) (maxR : Nat) :
    ∀ (rem attempt : Nat),
      (∀ i, attempt ≤ i → i < attempt + rem → (outcomes i).isFailure = true) →
      (lookupGo outcomes maxR rem attempt).1 = .error ∧
        (lookupGo outcomes maxR rem attempt).2.1 = rem := by
  intro rem
  induction rem with
  | zero => intro attempt _; simp [lookupGo]
  | succ r ih =>
    intro attempt hfail
    have hf0 : (outcomes attempt).isFailure = true :=
      hfail attempt le_rfl (by omega)
    have hrec := ih (attempt + 1) (fun i h1 h2 => hfail i (by omega) (by omega))
    cases ho : outcomes attempt with
    | response d => rw [ho] at hf0; simp [AttemptOutcome.isFailure] at hf0
    | clientError =>
      simp [lookupGo, ho, hrec.1, hrec.2]
    | generalError =>
      simp [lookupGo, ho, hrec.1, hrec.2]

/-! Helper lemmas about the enrichment merge. -/

theorem get_keyword_match_count_fst (iid : Nat) (o : Nat → AttemptOutcome)
    (m : Nat) :
    (get_keyword_match_count iid o m).1 = (iid, (lookupGo o m m 0).1) := rfl

theorem mergeMatches_length :
    ∀ (rs : List SearchRecord) (res : List (Nat × MatchCount)),
      (mergeMatches rs res).length = rs.length := by
  intro rs
  induction rs with
  | nil => intro res; cases res <;> rfl
  | cons r rs ih =>
    intro res
    cases res with
    | nil => rfl
    | cons p ps =>
      cases p with
      | mk iid mc => simp [mergeMatches, ih]

theorem enrich_length (oracle : Nat → Nat → AttemptOutcome)
    (rs : List SearchRecord) :
    (get_keyword_matches_for_search_results oracle rs).length = rs.length := by
  simp [get_keyword_matches_for_search_results, mergeMatches_length]

theorem enrich_map_of_all_ids (oracle : Nat → Nat → AttemptOutcome) :
    ∀ (records : List SearchRecord),
      (∀ r ∈ records, r.pageId.isSome = true) →
      get_keyword_matches_for_search_results oracle records =
        records.map (enrichOne oracle) := by
  intro records
  induction records with
  | nil => intro _; rfl
  | cons r rs ih =>
    intro hall
    have hr : r.pageId.isSome = true := hall r (List.mem_cons_self r rs)
    obtain ⟨iid, hiid⟩ := Option.isSome_iff_exists.mp hr
    have hrs := ih (fun x hx => hall x (List.mem_cons_of_mem r hx))
    simp only [get_keyword_matches_for_search_results] at hrs ⊢
    rw [List.filterMap_cons, hiid]
    simp only [List.map_cons, get_keyword_match_count_fst, List.map]
    rw [mergeMatches, hiid]
    simp only [if_pos rfl, List.map_cons]
    refine congrArg₂ List.cons ?_ ?_
    · simp [enrichOne, hiid, get_keyword_match_count_fst]
    · simpa [get_keyword_match_count_fst] using hrs

/-! Helper lemmas about the coordinator. -/

theorem consumeValid_fst :
    ∀ (l : List PageResult) (acc : List SearchRecord) (cur : Option String),
      (consumeValid acc cur l).1 = acc ++ collectRecords l := by
  intro l
  induction l with
  | nil => intro acc cur; simp [consumeValid, collectRecords]
  | cons p ps ih =>
    intro acc cur
    simp [consumeValid, collectRecords, ih, List.append_assoc]

theorem consumeValid_snd :
    ∀ (l : List PageResult) (acc : List SearchRecord) (cur : Option String),
      (consumeValid acc cur l).2 =
        (match l.getLast? with
         | none => cur
         | some v => v.nextStart) := by
  intro l
  induction l with
  | nil => intro acc cur; rfl
  | cons p ps ih =>
    intro acc cur
    cases ps with
    | nil => simp [consumeValid]
    | cons q qs =>
      rw [consumeValid, ih, List.getLast?_cons_cons]
      cases h : (q :: qs).getLast? with
      | none =>
        have hs : (q :: qs).getLast?.isSome = true :=
          List.getLast?_isSome.mpr (List.cons_ne_nil q qs)
        rw [h] at hs
        simp at hs
      | some v => rfl

theorem collectRecords_append :
    ∀ (a b : List PageResult),
      collectRecords (a ++ b) = collectRecords a ++ collectRecords b := by
  intro a b
  induction a with
  | nil => simp [collectRecords]
  | cons p ps ih => simp [collectRecords, ih]

theorem collectRecords_length :
    ∀ (l : List PageResult),
      (collectRecords l).length =
        (l.map (fun p => p.records_with_matches.length)).sum := by
  intro l
  induction l with
  | nil => rfl
  | cons p ps ih => simp [collectRecords, ih]

theorem buildRequests_start (keyword : String) (mp : Option Nat)
    (ls : Option String) :
    ∀ (n pc : Nat), ∀ req ∈ (buildRequests keyword mp ls n pc).1,
      req.start = ls := by
  intro n
  induction n with
  | zero => intro pc req h; simp [buildRequests] at h
  | succ m ih =>
    intro pc req h
    by_cases hc : capHit mp pc
    · simp [buildRequests, hc] at h
    · simp only [buildRequests, hc, Bool.false_eq_true, if_false,
        List.mem_cons] at h
      rcases h with h | h
      · rw [h]
      · exact ih (pc + 1) req h

theorem roundStep_allRecords (keyword : String) (mp : Option Nat)
    (fetch : PageRequest → Option PageResult) (st : CrawlState) :
    (roundStep keyword mp fetch st).1.allRecords =
      st.allRecords ++ collectRecords (roundStep keyword mp fetch st).2.1 := by
  unfold roundStep
  cases hv : (roundRequests keyword mp st).filterMap fetch with
  | nil => simp [collectRecords]
  | cons v vs => simp [consumeValid_fst]

/-! Helper lemmas about the page fetcher. -/

theorem spGo_head (oracle : Nat → Nat → AttemptOutcome) (o : FetchOutcome)
    (rest : List FetchOutcome) (pid cgen : Nat) :
    (scrapeSinglePageGo oracle (o :: rest) pid cgen).1.head? =
      some ⟨pid, cgen, o.isChallenge⟩ := by
  cases o with
  | page raw =>
    by_cases h : raw.records.isEmpty <;>
      simp [scrapeSinglePageGo, h, FetchOutcome.isChallenge]
  | challenge => simp [scrapeSinglePageGo, FetchOutcome.isChallenge]
  | networkError => simp [scrapeSinglePageGo, FetchOutcome.isChallenge]
  | parseFailure => simp [scrapeSinglePageGo, FetchOutcome.isChallenge]

theorem spGo_chain_aux (oracle : Nat → Nat → AttemptOutcome)
    (rest : List FetchOutcome) (pid cgen pid' cgen' : Nat) (c : Bool)
    (hnext : List.Chain' sessionStep (scrapeSinglePageGo oracle rest pid' cgen').1)
    (hpid : pid' = pid + 1)
    (hcgen : cgen' = if c = true then cgen + 1 else cgen) :
    List.Chain' sessionStep
      (⟨pid, cgen, c⟩ :: (scrapeSinglePageGo oracle rest pid' cgen').1) := by
  refine List.chain'_cons'.mpr ⟨?_, hnext⟩
  intro y hy
  cases rest with
  | nil => simp [scrapeSinglePageGo] at hy
  | cons o' rest' =>
    rw [spGo_head] at hy
    simp only [Option.mem_def, Option.some.injEq] at hy
    subst hy
    exact ⟨hpid, hcgen⟩

theorem spGo_chain (oracle : Nat → Nat → AttemptOutcome) :
    ∀ (outcomes : List FetchOutcome) (pid cgen : Nat),
      List.Chain' sessionStep (scrapeSinglePageGo oracle outcomes pid cgen).1 := by
  intro outcomes
  induction outcomes with
  | nil => intro pid cgen; simp [scrapeSinglePageGo]
  | cons o rest ih =>
    intro pid cgen
    cases o with
    | page raw =>
      by_cases h : raw.records.isEmpty
      · rw [scrapeSinglePageGo]
        simp only [h, if_true]
        exact spGo_chain_aux oracle rest pid cgen _ _ false (ih _ _) rfl rfl
      · rw [scrapeSinglePageGo]
        simp only [h, if_false]
        exact List.chain'_singleton _
    | challenge =>
      rw [scrapeSinglePageGo]
      exact spGo_chain_aux oracle rest pid cgen _ _ true (ih _ _) rfl rfl
    | networkError =>
      rw [scrapeSinglePageGo]
      exact spGo_chain_aux oracle rest pid cgen _ _ false (ih _ _) rfl rfl
    | parseFailure =>
      rw [scrapeSinglePageGo]
      exact spGo_chain_aux oracle rest pid cgen _ _ false (ih _ _) rfl rfl

theorem spGo_some_nonempty (oracle : Nat → Nat → AttemptOutcome) :
    ∀ (outcomes : List FetchOutcome) (pid cgen : Nat) (res : PageResult),
      (scrapeSinglePageGo oracle outcomes pid cgen).2 = some res →
      res.records_with_matches ≠ [] := by
  intro outcomes
  induction outcomes with
  | nil => intro pid cgen res h; simp [scrapeSinglePageGo] at h
  | cons o rest ih =>
    intro pid cgen res h
    cases o with
    | page raw =>
      by_cases he : raw.records.isEmpty
      · rw [scrapeSinglePageGo] at h
        simp only [he, if_true] at h
        exact ih _ _ _ h
      · rw [scrapeSinglePageGo] at h
        simp only [if_neg he, Option.some.injEq] at h
        subst h
        intro hcon
        dsimp only at hcon
        have hlen := enrich_length oracle raw.records
        rw [hcon] at hlen
        simp only [List.length_nil] at hlen
        have hnil : raw.records = [] := List.length_eq_zero.mp hlen.symm
        rw [hnil] at he
        exact he rfl
    | challenge =>
      rw [scrapeSinglePageGo] at h
      exact ih _ _ _ h
    | networkError =>
      rw [scrapeSinglePageGo] at h
      exact ih _ _ _ h
    | parseFailure =>
      rw [scrapeSinglePageGo] at h
      exact ih _ _ _ h

theorem spGo_none_of_unusable (oracle : Nat → Nat → AttemptOutcome) :
    ∀ (outcomes : List FetchOutcome) (pid cgen : Nat),
      (∀ o ∈ outcomes, o.yieldsRecords = false) →
      (scrapeSinglePageGo oracle outcomes pid cgen).2 = none := by
  intro outcomes
  induction outcomes with
  | nil => intro pid cgen _; rfl
  | cons o rest ih =>
    intro pid cgen hall
    have ho : o.yieldsRecords = false := hall o (List.mem_cons_self o rest)
    have htl : ∀ x ∈ rest, x.yieldsRecords = false :=
      fun x hx => hall x (List.mem_cons_of_mem o hx)
    cases o with
    | page raw =>
      have he : raw.records.isEmpty = true := by
        simpa [FetchOutcome.yieldsRecords] using ho
      rw [scrapeSinglePageGo]
      rw [if_pos he]
      exact ih _ _ htl
    | challenge =>
      rw [scrapeSinglePageGo]
      exact ih _ _ htl
    | networkError =>
      rw [scrapeSinglePageGo]
      exact ih _ _ htl
    | parseFailure =>
      rw [scrapeSinglePageGo]
      exact ih _ _ htl

theorem lookupGo_bad_shape (outcomes : Nat → AttemptOutcome) (maxR : Nat)
    (data : Json) (rem attempt : Nat)
    (h0 : outcomes attempt = .response data) (hp : parseHits data = none) :
    lookupGo outcomes maxR (rem + 1) attempt = (.error, 1, 0) := by
  simp [lookupGo, h0, hp]

/-! Claim theorems. -/

/-- C2 (amended): retry contract of `get_keyword_match_count`
(`maxAttempts = 5`).  If the operation fails `k < 5` times and then
succeeds, the result is the success value after exactly `k + 1` attempts,
and the number of backoff sleeps equals the number of those `k` failures
that were general (non-client) errors: a failure caught as
`aiohttp.ClientError` hits `continue`, which skips the backoff sleep, so it
contributes no sleep.  If all 5 attempts fail, the result is the terminal
`(image_id, "ERROR")` sentinel after exactly 5 attempts, and no exception
propagates (the function is total). -/
theorem C2_retry_policy :
    (∀ (outcomes : Nat → AttemptOutcome) (k n iid : Nat) (data : Json),
      k < 5 →
      (∀ i, i < k → (outcomes i).isFailure = true) →
      outcomes k = .response data →
      parseHits data = some n →
      get_keyword_match_count iid outcomes 5 =
        ((iid, .counted n), k + 1, generalCount outcomes 0 k)) ∧
    (∀ (outcomes : Nat → AttemptOutcome) (iid : Nat),
      (∀ i, i < 5 → (outcomes i).isFailure = true) →
      (get_keyword_match_count iid outcomes 5).1 = (iid, .error) ∧
        (get_keyword_match_count iid outcomes 5).2.1 = 5) := by
  constructor
  · intro outcomes k n iid data hk hfail hresp hparse
    have h := lookupGo_fail_then_success outcomes 5 data n k 5 0 hk (by omega)
      (fun i h1 h2 => hfail i (by omega)) (by simpa using hresp) hparse
    simp [get_keyword_match_count, h]
  · intro outcomes iid hfail
    have h := lookupGo_all_fail outcomes 5 5 0 (fun i h1 h2 => hfail i (by omega))
    exact ⟨by simp [get_keyword_match_count, h.1],
      by simp [get_keyword_match_count, h.2]⟩

/-- C2 witness: one general-error failure then a 2-hit success gives result
`Counted 2` after 2 attempts with exactly 1 backoff sleep. -/
theorem C2_witness :
    get_keyword_match_count 7 oneGeneralThenSuccess 5 = ((7, .counted 2), 2, 1) := by
  have h := C2_retry_policy.1 oneGeneralThenSuccess 1 2 7
    (.arr [.arr [.atom "m", .atom "m"]]) (by omega)
    (fun i hi => by
      have hz : i = 0 := by omega
      subst hz
      rfl)
    rfl rfl
  exact h.trans (by decide)

/-- C2 counterexample: the lookup fails exactly once (k = 1, an
`aiohttp.ClientError`) and then succeeds with two hits.  The claim predicts
exactly 1 backoff sleep, but the `continue` in the client-error handler
skips the sleep line: the run performs 2 attempts and 0 sleeps. -/
theorem C2_counterexample :
    oneClientThenSuccess 0 = .clientError ∧
    oneClientThenSuccess 1 = .response (.arr [.arr [.atom "m", .atom "m"]]) ∧
    parseHits (.arr [.arr [.atom "m", .atom "m"]]) = some 2 ∧
    get_keyword_match_count 7 oneClientThenSuccess 5 = ((7, .counted 2), 2, 0) ∧
    (0 : Nat) ≠ 1 :=
  ⟨rfl, rfl, rfl, by decide, by decide⟩

/-- C5 (amended): lookup response parsing.  A response that is a non-empty
list whose first element is itself a list yields a match count equal to
that first element's length, returning on the spot.  But a successfully
decoded response of any other shape is NOT retried: the lookup immediately
returns the `(image_id, "ERROR")` sentinel on that very attempt — exactly
one attempt, zero sleeps — instead of re-attempting up to the attempt
bound.  (Only attempts that raise, e.g. JSON decode failures, are
retried.) -/
theorem C5_parse_shape :
    (∀ (ys rest : List Json),
      parseHits (.arr (.arr ys :: rest)) = some ys.length) ∧
    (∀ (outcomes : Nat → AttemptOutcome) (data : Json) (n iid : Nat),
      outcomes 0 = .response data → parseHits data = some n →
      get_keyword_match_count iid outcomes 5 = ((iid, .counted n), 1, 0)) ∧
    (∀ (outcomes : Nat → AttemptOutcome) (data : Json) (iid : Nat),
      outcomes 0 = .response data → parseHits data = none →
      get_keyword_match_count iid outcomes 5 = ((iid, .error), 1, 0)) := by
  refine ⟨fun ys rest => rfl, ?_, ?_⟩
  · intro outcomes data n iid h0 hp
    have h := lookupGo_fail_then_success outcomes 5 data n 0 5 0 (by omega)
      (by omega) (fun i h1 h2 => absurd h2 (by omega)) (by simpa using h0) hp
    simp [get_keyword_match_count, h, generalCount]
  · intro outcomes data iid h0 hp
    have h : lookupGo outcomes 5 5 0 = (.error, 1, 0) :=
      lookupGo_bad_shape outcomes 5 data 4 0 h0 hp
    simp [get_keyword_match_count, h]

/-- C5 witness: a wrong-shape (non-list) decoded response on every attempt
yields the `"ERROR"` sentinel after exactly one attempt and zero sleeps. -/
theorem C5_witness :
    get_keyword_match_count 9 alwaysBadShape 5 = ((9, .error), 1, 0) :=
  C5_parse_shape.2.2 alwaysBadShape (.atom "x") 9 rfl rfl

/-- C5 counterexample: the first attempt decodes to a non-list value while
a well-formed 2-hit response is available on the second attempt.  The claim
predicts the malformed response is retried; the code instead returns the
`"ERROR"` sentinel after exactly one attempt, never reaching the available
success. -/
theorem C5_counterexample :
    badShapeThenGood 0 = .response (.atom "x") ∧
    parseHits (.atom "x") = none ∧
    badShapeThenGood 1 = .response (.arr [.arr [.atom "m", .atom "m"]]) ∧
    get_keyword_match_count 7 badShapeThenGood 5 = ((7, .error), 1, 0) :=
  ⟨rfl, rfl, rfl, by decide⟩

/-- C3 (amended): on a page whose records all carry a page identifier, the
enrichment merge leaves no record `Pending`: every record in the merged
output has its `keyword_match_count` assigned (necessarily `Counted n` or
the `"ERROR"` marker, the only inhabitants of `MatchCount`).  Records
lacking an identifier are skipped by the merge and stay `Pending`, and the
zip misalignment they cause can leave even identified records `Pending` —
see the counterexample, where formatting then fails. -/
theorem C3_no_pending_when_ids (oracle : Nat → Nat → AttemptOutcome)
    (records : List SearchRecord)
    (hids : ∀ r ∈ records, r.pageId.isSome = true) :
    (get_keyword_matches_for_search_results oracle records).all
      (fun r => r.keyword_match_count.isSome) = true := by
  rw [List.all_eq_true]
  intro r' hr'
  rw [enrich_map_of_all_ids oracle records hids] at hr'
  obtain ⟨r, hr, rfl⟩ := List.mem_map.mp hr'
  obtain ⟨iid, hiid⟩ := Option.isSome_iff_exists.mp (hids r hr)
  simp [enrichOne, hiid]

/-- C3 witness: a one-record page with page id 7 comes out of the merge
with its count asigned. -/
theorem C3_witness :
    (get_keyword_matches_for_search_results zeroHitsOracle [recordId7]).all
      (fun r => r.keyword_match_count.isSome) = true :=
  C3_no_pending_when_ids zeroHitsOracle [recordId7] (by decide)

/-- C3 counterexample: a record without a page id followed by one with page
id 7.  Only one lookup task is created, and `zip` pairs its result with the
id-less first record, which the merge skips; the identified second record
is left unpaired, so its `keyword_match_count` is never assigned — it stays
`Pending` in the aggregate, and `format_and_save_records` then fails with a
`KeyError` instead of emitting it. -/
theorem C3_counterexample :
    get_keyword_matches_for_search_results zeroHitsOracle
        [recordNoId, recordId7] = [recordNoId, recordId7] ∧
    recordId7.pageId = some 7 ∧
    recordId7.keyword_match_count = none ∧
    format_and_save_records [recordNoId, recordId7] = none :=
  ⟨by decide, by decide, rfl, by decide⟩

/-- C6: an item whose per-item lookup exhausts all 5 attempts gets the
`"ERROR"` marker; on a page whose records all carry identifiers, with every
lookup attempt failing, every record still appears in the merged output
(same length as the input) with `keyword_match_count = "ERROR"` rather than
being dropped; and a page fetch whose payload has records still returns a
result (`some`), so the round containing the failed item is not aborted. -/
theorem C6_exhausted_lookup_kept :
    (∀ (iid : Nat) (outcomes : Nat → AttemptOutcome),
      (∀ i, i < 5 → (outcomes i).isFailure = true) →
      (get_keyword_match_count iid outcomes 5).1 = (iid, .error)) ∧
    (∀ (oracle : Nat → Nat → AttemptOutcome) (records : List SearchRecord),
      (∀ r ∈ records, r.pageId.isSome = true) →
      (∀ iid i, i < 5 → (oracle iid i).isFailure = true) →
      (get_keyword_matches_for_search_results oracle records).all
          (fun r => decide (r.keyword_match_count = some .error)) = true ∧
        (get_keyword_matches_for_search_results oracle records).length =
          records.length) ∧
    (∀ (oracle : Nat → Nat → AttemptOutcome) (raw : RawPage)
        (rest : List FetchOutcome) (pid cgen : Nat),
      raw.records.isEmpty = false →
      (scrapeSinglePageGo oracle (.page raw :: rest) pid cgen).2.isSome = true) := by
  refine ⟨?_, ?_, ?_⟩
  · intro iid outcomes hfail
    have h := lookupGo_all_fail outcomes 5 5 0 (fun i h1 h2 => hfail i (by omega))
    simp [get_keyword_match_count, h.1]
  · intro oracle records hids hfail
    refine ⟨?_, enrich_length oracle records⟩
    rw [List.all_eq_true]
    intro r' hr'
    rw [enrich_map_of_all_ids oracle records hids] at hr'
    obtain ⟨r, hr, rfl⟩ := List.mem_map.mp hr'
    obtain ⟨iid, hiid⟩ := Option.isSome_iff_exists.mp (hids r hr)
    have herr : (get_keyword_match_count iid (oracle iid) 5).1.2 = .error := by
      have h := lookupGo_all_fail (oracle iid) 5 5 0
        (fun i h1 h2 => hfail iid i (by omega))
      simp [get_keyword_match_count_fst, h.1]
    simp [enrichOne, hiid, herr]
  · intro oracle raw rest pid cgen hne
    rw [scrapeSinglePageGo]
    have hcond : ¬ raw.records.isEmpty = true := by simp [hne]
    rw [if_neg hcond]
    rfl

/-- C6 witness: a lookup whose every attempt raises returns the `"ERROR"`
pair. -/
theorem C6_witness :
    (get_keyword_match_count 7 allGeneralErrors 5).1 = (7, .error) :=
  C6_exhausted_lookup_kept.1 7 allGeneralErrors (fun _ _ => rfl)

/-- C1: per-round cursor discipline of `scrape_newspapers`.  Every request
of a round is built from the round's single `last_start_value` (the params
dicts are all created before any fetch runs, so no in-flight request can
observe a cursor mutation — the cursor is only written in the
serialize-after-join loop over the completed results), and after the round
the cursor equals the `nextStart` of one fixed, deterministic result: the
last valid result in batch order. -/
theorem C1_cursor_discipline (keyword : String) (mp : Option Nat)
    (fetch : PageRequest → Option PageResult) (st : CrawlState) :
    ((roundRequests keyword mp st).all
      (fun req => decide (req.start = st.lastStart)) = true) ∧
    ∀ v : PageResult, (roundStep keyword mp fetch st).2.1.getLast? = some v →
      (roundStep keyword mp fetch st).1.lastStart = v.nextStart := by
  constructor
  · rw [List.all_eq_true]
    intro req hreq
    exact decide_eq_true
      (buildRequests_start keyword mp st.lastStart CONCURRENT_PAGES
        st.pageCount req hreq)
  · intro v hv
    unfold roundStep at hv ⊢
    cases hlist : (roundRequests keyword mp st).filterMap fetch with
    | nil =>
      rw [hlist] at hv
      simp at hv
    | cons x xs =>
      rw [hlist] at hv
      dsimp only at hv ⊢
      rw [consumeValid_snd]
      rw [hv]

/-- C1 witness: from the initial state with pages 1 and 2 succeeding, the
post-round cursor is the second (last) result's next cursor, `"c2"`. -/
theorem C1_witness :
    (roundStep "k" none fetchTwoCursors initialState).1.lastStart = some "c2" :=
  (C1_cursor_discipline "k" none fetchTwoCursors initialState).2
    ⟨[], 50, some "c2"⟩ (by decide)

/-- C9: aggregation invariant of `scrape_newspapers`.  For any fuel and any
starting state, the records accumulated by the crawl loop are exactly the
starting records followed by the concatenation of the consumed valid
`PageResult`s' record lists — in round order, then per-page batch order —
and hence the total count equals the sum of the consumed results' item
counts.  Instantiating the starting state at any round boundary gives the
invariant at every point of the run. -/
theorem C9_aggregation_invariant (keyword : String) (mp : Option Nat)
    (fetch : PageRequest → Option PageResult) :
    ∀ (fuel : Nat) (st : CrawlState),
      (crawlLoop keyword mp fetch fuel st).1.allRecords =
        st.allRecords ++ collectRecords (crawlLoop keyword mp fetch fuel st).2.1 ∧
      (crawlLoop keyword mp fetch fuel st).1.allRecords.length =
        st.allRecords.length +
          ((crawlLoop keyword mp fetch fuel st).2.1.map
            (fun p => p.records_with_matches.length)).sum := by
  have main : ∀ (fuel : Nat) (st : CrawlState),
      (crawlLoop keyword mp fetch fuel st).1.allRecords =
        st.allRecords ++ collectRecords (crawlLoop keyword mp fetch fuel st).2.1 := by
    intro fuel
    induction fuel with
    | zero => intro st; simp [crawlLoop, collectRecords]
    | succ f ih =>
      intro st
      have hround := roundStep_allRecords keyword mp fetch st
      rw [crawlLoop]
      cases hr : roundStep keyword mp fetch st with
      | mk st' rest =>
        cases rest with
        | mk valid stop =>
          rw [hr] at hround
          cases stop with
          | some r => simpa using hround
          | none =>
            simp only at hround ⊢
            rw [ih st']
            rw [hround, collectRecords_append, List.append_assoc]
  intro fuel st
  refine ⟨main fuel st, ?_⟩
  rw [main fuel st]
  rw [List.length_append, collectRecords_length]

/-- C7: an all-failed round ends the crawl gracefully.  If every request of
the current round fetches to `None` (failed even after retries), the crawl
loop returns right after this round with reason `emptyRound` — a normal
end-of-crawl, not an error — and the accumulated record list is exactly the
one from before the round, unchanged (as are the total-page estimate and
the cursor; only the page counter advanced). -/
theorem C7_total_round_failure (keyword : String) (mp : Option Nat)
    (fetch : PageRequest → Option PageResult) (st : CrawlState) (fuel : Nat)
    (hfail : ∀ req ∈ roundRequests keyword mp st, fetch req = none) :
    crawlLoop keyword mp fetch (fuel + 1) st =
      (⟨st.allRecords, roundPageCount keyword mp st, st.totalPages,
        st.lastStart⟩, [], some .emptyRound) := by
  have hnil : (roundRequests keyword mp st).filterMap fetch = [] :=
    List.filterMap_eq_nil_iff.mpr hfail
  rw [crawlLoop]
  unfold roundStep
  rw [hnil]

/-- C7 witness: from a mid-crawl state holding one record, a round in which
every fetch fails returns immediately with `emptyRound`, retaining the
record. -/
theorem C7_witness :
    crawlLoop "k" none fetchAllFail 4 midState =
      (⟨[enrichedRecord], 10, 7, some "n1"⟩, [], some .emptyRound) := by
  have h := C7_total_round_failure "k" none fetchAllFail midState 3
    (fun req _ => rfl)
  exact h.trans (by decide)

/-- C4 (amended): termination conditions of `scrape_newspapers`'s loop.  A
round stops the crawl exactly when one of FOUR conditions holds, evaluated
in the source's order (first true wins): the round produced no valid
result (`emptyRound`); the explicit page cap is reached; the page counter
has reached the total-page ESTIMATE recomputed from the first valid
result's reported record count — a termination condition absent from the
claim; or the cursor reports exhausted (`nextStart` null).  The loop
continues iff none of the four holds.  Scenario B does hold: with page cap
1 and five pages available, the crawl stops after round 1 having dispatched
exactly one page, regardless of the reported total-page estimate. -/
theorem C4_termination_conditions :
    (∀ (keyword : String) (mp : Option Nat)
        (fetch : PageRequest → Option PageResult) (st : CrawlState),
      ((roundStep keyword mp fetch st).2.1 = [] →
        (roundStep keyword mp fetch st).2.2 = some .emptyRound) ∧
      ((roundStep keyword mp fetch st).2.1 ≠ [] →
        capHit mp (roundStep keyword mp fetch st).1.pageCount = true →
        (roundStep keyword mp fetch st).2.2 = some .capReached) ∧
      ((roundStep keyword mp fetch st).2.1 ≠ [] →
        capHit mp (roundStep keyword mp fetch st).1.pageCount = false →
        (roundStep keyword mp fetch st).1.totalPages ≤
          (roundStep keyword mp fetch st).1.pageCount →
        (roundStep keyword mp fetch st).2.2 = some .totalPagesReached) ∧
      ((roundStep keyword mp fetch st).2.1 ≠ [] →
        capHit mp (roundStep keyword mp fetch st).1.pageCount = false →
        (roundStep keyword mp fetch st).1.pageCount <
          (roundStep keyword mp fetch st).1.totalPages →
        (roundStep keyword mp fetch st).1.lastStart = none →
        (roundStep keyword mp fetch st).2.2 = some .exhausted) ∧
      ((roundStep keyword mp fetch st).2.2 = none ↔
        (roundStep keyword mp fetch st).2.1 ≠ [] ∧
          capHit mp (roundStep keyword mp fetch st).1.pageCount = false ∧
          (roundStep keyword mp fetch st).1.pageCount <
            (roundStep keyword mp fetch st).1.totalPages ∧
          (roundStep keyword mp fetch st).1.lastStart ≠ none)) ∧
    ((crawlLoop "k" (some 1) fetchFivePages 10 initialState).2.2 =
        some .capReached ∧
      (crawlLoop "k" (some 1) fetchFivePages 10 initialState).1.pageCount = 1) := by
  constructor
  · intro keyword mp fetch st
    unfold roundStep
    cases hlist : (roundRequests keyword mp st).filterMap fetch with
    | nil =>
      dsimp only
      refine ⟨fun _ => rfl, ?_, ?_, ?_, ?_⟩ <;> simp
    | cons v vs =>
      dsimp only
      refine ⟨?_, ?_, ?_, ?_, ?_⟩
      · intro h
        simp at h
      · intro _ hc
        rw [if_pos hc]
      · intro _ hc hle
        rw [if_neg (by simp [hc]), if_pos hle]
      · intro _ hc hlt hn
        rw [if_neg (by simp [hc]), if_neg (by omega), if_pos hn]
      · constructor
        · intro h
          by_cases hc : capHit mp (roundPageCount keyword mp st) = true
          · rw [if_pos hc] at h
            exact absurd h (by simp)
          · have hc' : capHit mp (roundPageCount keyword mp st) = false := by
              simpa using hc
            rw [if_neg hc] at h
            by_cases hle : ceilDiv v.recordCount RESULTS_PER_PAGE ≤
                roundPageCount keyword mp st
            · rw [if_pos hle] at h
              exact absurd h (by simp)
            · rw [if_neg hle] at h
              by_cases hn :
                  (consumeValid st.allRecords st.lastStart (v :: vs)).2 = none
              · rw [if_pos hn] at h
                exact absurd h (by simp)
              · exact ⟨List.cons_ne_nil v vs, hc', by omega, hn⟩
        · rintro ⟨hne, hc, hlt, hn⟩
          rw [if_neg (by simp [hc]), if_neg (by omega), if_neg hn]
  · exact ⟨by decide, by decide⟩

/-- C4 witness: a round whose fetches all succeed with a huge reported
record count and a non-null cursor satisfies none of the four stop
conditions, so by the characterization the loop continues. -/
theorem C4_witness :
    (roundStep "k" none fetchKeepsGoing initialState).2.2 = none := by
  have h :=
    (C4_termination_conditions.1 "k" none fetchKeepsGoing initialState).2.2.2.2
  exact h.mpr ⟨by decide, by decide, by decide, by decide⟩

/-- C4 counterexample: with NO page cap and an upstream that always returns
a valid page whose next cursor is non-null but which reports only 50 total
records, round 1 dispatches 10 pages, the estimate becomes 1, and
`page_count >= total_pages` stops the crawl — though none of the claim's
three conditions holds: no cap is set, the cursor is not exhausted
(`some "c1"`), and the round yielded usable pages. -/
theorem C4_counterexample :
    (crawlLoop "k" none fetchFiftyTotal 5 initialState).2.2 =
        some .totalPagesReached ∧
    (crawlLoop "k" none fetchFiftyTotal 5 initialState).1.lastStart =
        some "c1" ∧
    (crawlLoop "k" none fetchFiftyTotal 5 initialState).2.1 ≠ [] :=
  ⟨by decide, by decide, by decide⟩

/-- C8: challenge handling in `scrape_single_page`.  Along the attempt
trace, consecutive attempts satisfy `sessionStep`: the next attempt always
runs on a freshly opened tab (the failed attempt's tab is closed before
retrying), and the cookie jar generation is bumped (`context.clear_cookies()`)
exactly when the previous attempt detected the anti-bot challenge.  In
particular, after any challenge-detecting attempt, the next attempt — if
one remains — uses cleared cookies and a fresh page, never the tab on which
the challenge appeared. -/
theorem C8_challenge_resets_session (oracle : Nat → Nat → AttemptOutcome)
    (outcomes : List FetchOutcome) :
    List.Chain' sessionStep (scrape_single_page oracle outcomes).1 :=
  spGo_chain oracle (outcomes.take 3) 1 0

/-- C10: `scrape_single_page` never returns an empty page as a success:
every `some` result carries a non-empty enriched record list; and if no
attempt produces a payload with records (zero-record responses raise
`"No records found"` and are retried), the fetcher returns `None` after
exhausting its attempts, so the empty page is dropped from the round by the
coordinator's `filterMap` instead of contributing a zero-item result. -/
theorem C10_no_empty_success :
    (∀ (oracle : Nat → Nat → AttemptOutcome) (outcomes : List FetchOutcome)
        (res : PageResult),
      (scrape_single_page oracle outcomes).2 = some res →
      res.records_with_matches ≠ []) ∧
    (∀ (oracle : Nat → Nat → AttemptOutcome) (outcomes : List FetchOutcome),
      (∀ o ∈ outcomes, o.yieldsRecords = false) →
      (scrape_single_page oracle outcomes).2 = none) := by
  constructor
  · intro oracle outcomes res h
    exact spGo_some_nonempty oracle (outcomes.take 3) 1 0 res h
  · intro oracle outcomes hall
    exact spGo_none_of_unusable oracle (outcomes.take 3) 1 0
      (fun o ho => hall o (List.take_subset 3 outcomes ho))

/-- C10 witness: three unusable attempts (network error, zero-record page,
challenge) make the fetcher return `None`. -/
theorem C10_witness :
    (scrape_single_page zeroHitsOracle
      [.networkError, .page ⟨[], 0, none⟩, .challenge]).2 = none :=
  C10_no_empty_success.2 zeroHitsOracle
    [.networkError, .page ⟨[], 0, none⟩, .challenge] (by decide)

end Newspapers
